import Mathlib

/-!
Verification of the consensus-engine exercises repository.

The development shallowly embeds the Rust sources:
 - `c3` models `src/c3_consensus/` (the generic `Consensus` engines:
   PoW, the PoA family, `EvenOnly`, `Forked`);
 - `c2` models `src/c2_blockchain/p3_consensus.rs` (the chain-walking
   verification driver `verify_sub_chain`).

Machine integers (`u64`) are embedded as `Nat`, reducing modulo `U64 = 2^64`
exactly where the Rust arithmetic can wrap. The external hash collaborator
(`crate::hash`, an opaque deterministic `header -> u64` oracle per the spec)
is a function parameter of every definition that uses it. Rust panics
(out-of-bounds indexing, remainder by zero) are embedded as `none`, so a
function that can panic returns `Option _`.
-/

/-- Modulus of the 64-bit machine integers used throughout the sources. -/
def U64 : Nat := 2 ^ 64

namespace c3

/-- The generic block header of chapter 3, as constructed field-by-field in
`p1_pow.rs` and `p3_poa.rs` (the struct itself lives in the chapter's
`mod.rs`, outside the provided sources; its fields — `parent`, `height`,
`extrinsics_root`, `state_root`, `consensus_digest : D` — are fixed by every
construction site and by the spec's data model). -/
structure Header (D : Type) where
  parent : Nat
  height : Nat
  extrinsics_root : Nat
  state_root : Nat
  consensus_digest : D
deriving DecidableEq

/-- PoW validation, from `p1_pow.rs` lines 21-28: returns `false` when
`header.parent >= self.threshold`, and `true` otherwise. (Note: the body
tests the `parent` field against the threshold; it never computes the
header's hash.) -/
def PoW.validate (threshold : Nat) (_parent_digest : Nat) (header : Header Nat) : Bool :=
  if header.parent ≥ threshold then false else true

/-- The mining loop of `PoW::seal` (`p1_pow.rs` lines 41-47): each iteration
increments `consensus_digest` (u64, hence the reduction modulo `U64`),
recomputes the hash, and breaks — returning the current header — once the
hash is strictly above the threshold. The Rust loop is unbounded; `fuel`
bounds the embedding, with `none` meaning the loop has not yet returned
within `fuel` iterations, so every `some` result is exactly a value the Rust
loop returns. -/
def PoW.sealLoop (hash : Header Nat → Nat) (threshold : Nat) :
    Nat → Header Nat → Option (Header Nat)
  | 0, _ => none
  | fuel + 1, h =>
    let h2 : Header Nat := { h with consensus_digest := (h.consensus_digest + 1) % U64 }
    if hash h2 > threshold then some h2 else PoW.sealLoop hash threshold fuel h2

/-- PoW sealing, from `p1_pow.rs` lines 32-49: copies the partial header's
fields, starts the digest at 0 and runs the mining loop. -/
def PoW.seal (hash : Header Nat → Nat) (threshold fuel : Nat) (_parent_digest : Nat)
    (partial_header : Header Unit) : Option (Header Nat) :=
  PoW.sealLoop hash threshold fuel
    { parent := partial_header.parent, height := partial_header.height,
      extrinsics_root := partial_header.extrinsics_root,
      state_root := partial_header.state_root, consensus_digest := 0 }

/-- Round-robin-by-height validation, from `p3_poa.rs` lines 60-66:
`authorities.get((header.height % authorities.len()) as usize)`, comparing
the digest with the found authority. When the authority list is empty the
Rust expression `header.height % 0` panics (remainder by zero), embedded as
`none`. The authority type is the opaque equality-comparable token `A`. -/
def PoaRoundRobinByHeight.validate {A : Type} [DecidableEq A] (authorities : List A)
    (_parent_digest : A) (header : Header A) : Option Bool :=
  if authorities.length = 0 then
    none
  else
    match authorities[header.height % authorities.length]? with
    | some authority => some (decide (header.consensus_digest = authority))
    | none => some false

/-- Round-robin-by-height sealing, from `p3_poa.rs` lines 68-84: looks up
the authority at `partial_header.height % authorities.len()` (panicking —
outer `none` — on an empty list, propagating the lookup failure — inner
`none` — via the Rust question-mark operator) and copies the partial
header's fields, sealing with that authority. -/
def PoaRoundRobinByHeight.seal {A : Type} (authorities : List A) (_parent_digest : A)
    (partial_header : Header Unit) : Option (Option (Header A)) :=
  if authorities.length = 0 then
    none
  else
    some (match authorities[partial_header.height % authorities.length]? with
      | some authority =>
        some { parent := partial_header.parent, height := partial_header.height,
               extrinsics_root := partial_header.extrinsics_root,
               state_root := partial_header.state_root, consensus_digest := authority }
      | none => none)

/-- The slot digest of `p3_poa.rs` lines 103-107: a slot number plus the
signing authority. -/
structure SlotDigest (A : Type) where
  slot : Nat
  signature : A
deriving DecidableEq

/-- Round-robin-by-slot validation, from `p3_poa.rs` lines 112-115:
`header.consensus_digest.signature == self.authorities[header.consensus_digest.slot as usize]
&& header.consensus_digest.slot > parent_digest.slot`. The direct indexing
panics when the slot is at least the authority-list length, embedded as
`none`. -/
def PoaRoundRobinBySlot.validate {A : Type} [DecidableEq A] (authorities : List A)
    (parent_digest : SlotDigest A) (header : Header (SlotDigest A)) : Option Bool :=
  match authorities[header.consensus_digest.slot]? with
  | none => none
  | some a =>
    some (decide (header.consensus_digest.signature = a)
      && decide (header.consensus_digest.slot > parent_digest.slot))

/-- Round-robin-by-slot sealing, from `p3_poa.rs` lines 117-138: looks up
the authority at index `parent_digest.slot` (question-mark propagation of
the `get` failure), then seals the partial header with the digest
`{ slot := parent_digest.slot + 1, signature := that authority }`. -/
def PoaRoundRobinBySlot.seal {A : Type} (authorities : List A) (parent_digest : SlotDigest A)
    (partial_header : Header Unit) : Option (Header (SlotDigest A)) :=
  match authorities[parent_digest.slot]? with
  | none => none
  | some authority =>
    some { parent := partial_header.parent, height := partial_header.height,
           extrinsics_root := partial_header.extrinsics_root,
           state_root := partial_header.state_root,
           consensus_digest := { slot := (parent_digest.slot + 1) % U64,
                                 signature := authority } }

/-- EvenOnly validation, from `p4_even_only.rs` lines 20-31: the inner
engine's verdict conjoined with evenness of `state_root`. The inner engine
is abstracted as its validation function. -/
def EvenOnly.validate {D : Type} (innerValidate : D → Header D → Bool)
    (parent_digest : D) (header : Header D) : Bool :=
  innerValidate parent_digest header && decide (header.state_root % 2 = 0)

/-- EvenOnly sealing, from `p4_even_only.rs` lines 33-49: delegate to the
inner engine's seal (propagating its `none`); return the sealed header
unchanged when its `state_root` is even, and `none` when it is odd. -/
def EvenOnly.seal {D : Type} (innerSeal : D → Header Unit → Option (Header D))
    (parent_digest : D) (partial_header : Header Unit) : Option (Header D) :=
  match innerSeal parent_digest partial_header with
  | none => none
  | some sealed => if sealed.state_root % 2 = 0 then some sealed else none

/-- Forked validation, from `p6_forking.rs` lines 32-38: if
`header.height < fork_height` delegate to the Before engine, otherwise to
the After engine. The two inner engines are abstracted as validation
functions over the unified digest type (the source folds the digest
projections into the delegated calls). -/
def Forked.validate {D : Type} (fork_height : Nat)
    (beforeValidate afterValidate : D → Header D → Bool)
    (parent_digest : D) (header : Header D) : Bool :=
  if header.height < fork_height then beforeValidate parent_digest header
  else afterValidate parent_digest header

/-- Forked sealing, from `p6_forking.rs` lines 40-50: the same height test,
applied to the partial header's height, chooses which engine seals. -/
def Forked.seal {D : Type} (fork_height : Nat)
    (beforeSeal afterSeal : D → Header Unit → Option (Header D))
    (parent_digest : D) (partial_header : Header Unit) : Option (Header D) :=
  if partial_header.height < fork_height then beforeSeal parent_digest partial_header
  else afterSeal parent_digest partial_header

/-- A concrete instance of the opaque hash collaborator, used to evaluate
the PoW engine on explicit inputs: a deterministic u64 digest that
incorporates every header field, as section 6 of the spec requires. -/
def hashSum (h : Header Nat) : Nat :=
  (h.parent + h.height + h.extrinsics_root + h.state_root + h.consensus_digest) % U64

end c3

namespace c2

/-- The chapter-2 header, from `p3_consensus.rs` lines 29-36: all fields are
u64, `consensus_digest` is the PoW nonce. -/
structure Header where
  parent : Nat
  height : Nat
  extrinsic : Nat
  state : Nat
  consensus_digest : Nat
deriving DecidableEq

/-- The difficulty threshold of `p3_consensus.rs` line 19:
`u64::max_value() / 1`. -/
def THRESHOLD : Nat := (U64 - 1) / 1

/-- The verification driver, from `p3_consensus.rs` lines 67-90: walks the
candidate chain keeping the previous header (initially `self`), returning
`false` at the first header whose `parent` is not the hash of its
predecessor, whose `height` is not the predecessor's height plus one, whose
`state` is not the predecessor's state plus its own `extrinsic`, whose hash
reaches `THRESHOLD`, or whose `consensus_digest` differs from the
predecessor's. -/
def Header.verify_sub_chain (hash : Header → Nat) (self : Header) :
    List Header → Bool
  | [] => true
  | h :: rest =>
    if h.parent ≠ hash self then false
    else if h.height ≠ (self.height + 1) % U64 then false
    else if h.state ≠ (self.state + h.extrinsic) % U64 then false
    else if hash h ≥ THRESHOLD then false
    else if h.consensus_digest ≠ self.consensus_digest then false
    else Header.verify_sub_chain hash h rest

/-- A concrete instance of the opaque hash collaborator for evaluating the
chapter-2 driver on explicit inputs. -/
def hashZero (_h : Header) : Nat := 0

end c2

/-- A concrete Before-engine validation function (accepts everything), used
to evaluate the fork dispatcher on explicit inputs. -/
def beforeValidateW : Nat → c3.Header Nat → Bool := fun _ _ => true

/-- A concrete After-engine validation function (rejects everything), used
to evaluate the fork dispatcher on explicit inputs. -/
def afterValidateW : Nat → c3.Header Nat → Bool := fun _ _ => false

/-- A concrete Before-engine sealing function (never seals), used to
evaluate the fork dispatcher on explicit inputs. -/
def beforeSealW : Nat → c3.Header Unit → Option (c3.Header Nat) := fun _ _ => none

/-- A concrete After-engine sealing function (always seals the same
header), used to evaluate the fork dispatcher on explicit inputs. -/
def afterSealW : Nat → c3.Header Unit → Option (c3.Header Nat) := fun _ _ => some ⟨9, 9, 9, 9, 9⟩

/-- A concrete inner validation function (accepts headers of height 0),
used to evaluate the EvenOnly wrapper on explicit inputs. -/
def innerValidateW : Nat → c3.Header Nat → Bool := fun _ h => decide (h.height = 0)

/-- A concrete inner sealing function whose sealed header has an even state
root, used to evaluate the EvenOnly wrapper on explicit inputs. -/
def innerSealEvenW : Nat → c3.Header Unit → Option (c3.Header Nat) := fun _ _ => some ⟨0, 0, 0, 4, 0⟩

/-- A concrete inner sealing function whose sealed header has an odd state
root, used to evaluate the EvenOnly wrapper on explicit inputs. -/
def innerSealOddW : Nat → c3.Header Unit → Option (c3.Header Nat) := fun _ _ => some ⟨0, 0, 0, 3, 0⟩

/-- C1: the seal/validate self-consistency contract fails on the
round-robin-by-slot engine. With authorities `[0, 1]` and parent digest
`{slot 0, signature 0}`, `seal` returns a header for slot 1 signed by the
authority at index 0 (value 0), and `validate` on that very header returns
`some false`, because it compares the signature with the authority at
index 1 (value 1). The claim requires every sealed header to validate. -/
theorem seal_validate_inconsistent_slot :
    c3.PoaRoundRobinBySlot.seal [0, 1] ⟨0, 0⟩ ⟨0, 0, 0, 0, ()⟩
      = some ⟨0, 0, 0, 0, ⟨1, 0⟩⟩
    ∧ c3.PoaRoundRobinBySlot.validate [0, 1] ⟨0, 0⟩ ⟨0, 0, 0, 0, ⟨1, 0⟩⟩
      = some false := by
  decide

/-- C2: PoW validation does not test the header's hash. Under the hash
oracle `hashSum` and threshold 5, the header `{parent 0, nonce 10}` has
hash 10 above the threshold yet validates, and the header
`{parent U64-1, nonce 2}` has hash 1 at or below the threshold yet is
rejected — the body tests `parent < threshold` instead of
`hash(header) <= threshold`. -/
theorem pow_validate_ignores_hash :
    (c3.PoW.validate 5 0 ⟨0, 0, 0, 0, 10⟩ = true
      ∧ ¬ c3.hashSum ⟨0, 0, 0, 0, 10⟩ ≤ 5)
    ∧ (c3.PoW.validate 5 0 ⟨U64 - 1, 0, 0, 0, 2⟩ = false
      ∧ c3.hashSum ⟨U64 - 1, 0, 0, 0, 2⟩ ≤ 5) := by
  decide

/-- C3: the PoW mining loop stops at the wrong side of the threshold. Under
the hash oracle `hashSum` and threshold 5, sealing the zeroed partial
header returns the candidate with nonce 6, whose hash 6 is strictly above
the threshold, contradicting the claim that a sealed header satisfies
`hash(h) <= threshold` (the loop breaks when the hash exceeds it). -/
theorem pow_seal_exceeds_threshold :
    c3.PoW.seal c3.hashSum 5 10 0 ⟨0, 0, 0, 0, ()⟩ = some ⟨0, 0, 0, 0, 6⟩
    ∧ ¬ c3.hashSum ⟨0, 0, 0, 0, 6⟩ ≤ 5 := by
  decide

/-- C4: validation is not total. The round-robin-by-slot engine with a
single authority panics (embedded `none`) on a header whose digest slot is
5 — an out-of-bounds index — and the round-robin-by-height engine with an
empty authority list panics on the remainder by zero
`height % authorities.len()`. -/
theorem poa_validate_panics :
    c3.PoaRoundRobinBySlot.validate [0] ⟨0, 0⟩ ⟨0, 0, 0, 0, ⟨5, 0⟩⟩ = none
    ∧ c3.PoaRoundRobinByHeight.validate ([] : List Nat) 0 ⟨0, 0, 0, 0, 0⟩ = none := by
  decide

/-- C5: round-robin-by-slot validation does not reduce the slot modulo the
number of authorities. With authorities `[10, 11]`, a header for slot 2
signed by 10 — exactly the authority the claim assigns to
`2 mod 2 = 0`, with the slot strictly above the parent slot 0, so the claim
says the header validates — makes the code index `authorities[2]` and
panic (embedded `none`) instead of returning `true`. -/
theorem slot_validate_missing_mod :
    c3.PoaRoundRobinBySlot.validate [10, 11] ⟨0, 10⟩ ⟨0, 0, 0, 0, ⟨2, 10⟩⟩ = none
    ∧ [10, 11][2 % 2]? = some 10 := by
  decide

/-- C6: round-robin-by-height, with a non-empty authority list of length n,
validates a header of height k exactly when its digest is the authority at
index k mod n, and seals a partial header of height k by copying its fields
and signing with the authority at index k mod n. -/
theorem round_robin_by_height_mod {A : Type} [DecidableEq A] (authorities : List A)
    (hne : 0 < authorities.length) (parent_digest : A) (header : c3.Header A)
    (partial_header : c3.Header Unit) :
    (c3.PoaRoundRobinByHeight.validate authorities parent_digest header = some true
      ↔ header.consensus_digest
          = authorities.get ⟨header.height % authorities.length, Nat.mod_lt _ hne⟩)
    ∧ c3.PoaRoundRobinByHeight.seal authorities parent_digest partial_header
      = some (some
          { parent := partial_header.parent, height := partial_header.height,
            extrinsics_root := partial_header.extrinsics_root,
            state_root := partial_header.state_root,
            consensus_digest :=
              authorities.get ⟨partial_header.height % authorities.length, Nat.mod_lt _ hne⟩ }) := by
  have hlen0 : ¬ authorities.length = 0 := Nat.pos_iff_ne_zero.mp hne
  constructor
  · have hm : header.height % authorities.length < authorities.length := Nat.mod_lt _ hne
    simp [c3.PoaRoundRobinByHeight.validate, hlen0, List.getElem?_eq_getElem hm,
      List.get_eq_getElem]
  · have hm : partial_header.height % authorities.length < authorities.length := Nat.mod_lt _ hne
    simp [c3.PoaRoundRobinByHeight.seal, hlen0, List.getElem?_eq_getElem hm,
      List.get_eq_getElem]

/-- C6 witness: with authorities [7, 8], the height-3 header signed by 8
(the authority at index 3 mod 2 = 1) validates, and sealing a height-3
partial header signs with 8. -/
theorem round_robin_by_height_mod_witness :
    c3.PoaRoundRobinByHeight.validate [7, 8] 0 (⟨0, 3, 0, 0, 8⟩ : c3.Header Nat) = some true
    ∧ c3.PoaRoundRobinByHeight.seal [7, 8] (0 : Nat) ⟨0, 3, 0, 0, ()⟩
      = some (some ⟨0, 3, 0, 0, 8⟩) := by
  have h := round_robin_by_height_mod [7, 8] (by decide) 0
    (⟨0, 3, 0, 0, 8⟩ : c3.Header Nat) ⟨0, 3, 0, 0, ()⟩
  exact ⟨h.1.mpr (by decide), h.2⟩

/-- C7: the fork dispatcher is exactly height-gated: validation delegates
to the Before engine precisely when the header's height is below the fork
height and to the After engine precisely when it is at or above it, and
sealing applies the same test to the partial header's height. -/
theorem forked_height_gate {D : Type} (fork_height : Nat)
    (bv av : D → c3.Header D → Bool) (bs af : D → c3.Header Unit → Option (c3.Header D))
    (parent_digest : D) (header : c3.Header D) (partial_header : c3.Header Unit) :
    (header.height < fork_height →
      c3.Forked.validate fork_height bv av parent_digest header = bv parent_digest header)
    ∧ (fork_height ≤ header.height →
      c3.Forked.validate fork_height bv av parent_digest header = av parent_digest header)
    ∧ (partial_header.height < fork_height →
      c3.Forked.seal fork_height bs af parent_digest partial_header
        = bs parent_digest partial_header)
    ∧ (fork_height ≤ partial_header.height →
      c3.Forked.seal fork_height bs af parent_digest partial_header
        = af parent_digest partial_header) := by
  refine ⟨fun h => ?_, fun h => ?_, fun h => ?_, fun h => ?_⟩
  · exact if_pos h
  · exact if_neg (Nat.not_lt.mpr h)
  · exact if_pos h
  · exact if_neg (Nat.not_lt.mpr h)

/-- C7 witness: with fork height 3 and inner engines that disagree
everywhere, height 2 is handled by the Before engine and height 3 by the
After engine, for both validation and sealing — the gate is not off by
one. -/
theorem forked_height_gate_witness :
    c3.Forked.validate 3 beforeValidateW afterValidateW 0 (⟨0, 2, 0, 0, 0⟩ : c3.Header Nat) = true
    ∧ c3.Forked.validate 3 beforeValidateW afterValidateW 0 (⟨0, 3, 0, 0, 0⟩ : c3.Header Nat) = false
    ∧ c3.Forked.seal 3 beforeSealW afterSealW 0 ⟨0, 2, 0, 0, ()⟩ = none
    ∧ c3.Forked.seal 3 beforeSealW afterSealW 0 ⟨0, 3, 0, 0, ()⟩ = some ⟨9, 9, 9, 9, 9⟩ := by
  refine ⟨?_, ?_, ?_, ?_⟩
  · exact ((forked_height_gate 3 beforeValidateW afterValidateW beforeSealW afterSealW 0
      ⟨0, 2, 0, 0, 0⟩ ⟨0, 2, 0, 0, ()⟩).1 (by decide)).trans rfl
  · exact ((forked_height_gate 3 beforeValidateW afterValidateW beforeSealW afterSealW 0
      ⟨0, 3, 0, 0, 0⟩ ⟨0, 3, 0, 0, ()⟩).2.1 (by decide)).trans rfl
  · exact ((forked_height_gate 3 beforeValidateW afterValidateW beforeSealW afterSealW 0
      ⟨0, 2, 0, 0, 0⟩ ⟨0, 2, 0, 0, ()⟩).2.2.1 (by decide)).trans rfl
  · exact ((forked_height_gate 3 beforeValidateW afterValidateW beforeSealW afterSealW 0
      ⟨0, 3, 0, 0, 0⟩ ⟨0, 3, 0, 0, ()⟩).2.2.2 (by decide)).trans rfl

/-- C8: the EvenOnly wrapper validates exactly when the inner engine
validates and the state root is even; and when the inner engine seals a
header, the wrapper returns it unchanged if its state root is even and
returns none if it is odd. -/
theorem even_only_validate_seal {D : Type} (iv : D → c3.Header D → Bool)
    (isl : D → c3.Header Unit → Option (c3.Header D)) (parent_digest : D)
    (header : c3.Header D) (partial_header : c3.Header Unit) :
    (c3.EvenOnly.validate iv parent_digest header = true
      ↔ (iv parent_digest header = true ∧ header.state_root % 2 = 0))
    ∧ (∀ sealed, isl parent_digest partial_header = some sealed →
        (sealed.state_root % 2 = 0 →
          c3.EvenOnly.seal isl parent_digest partial_header = some sealed)
        ∧ (sealed.state_root % 2 ≠ 0 →
          c3.EvenOnly.seal isl parent_digest partial_header = none)) := by
  constructor
  · simp [c3.EvenOnly.validate]
  · intro sealed hseal
    constructor
    · intro he
      simp [c3.EvenOnly.seal, hseal, he]
    · intro ho
      simp [c3.EvenOnly.seal, hseal, ho]

/-- C8 witness: over a concrete inner engine, a height-0 header with even
state root 4 passes the wrapper; sealing returns the inner header unchanged
when its state root is 4 and none when it is 3. -/
theorem even_only_validate_seal_witness :
    c3.EvenOnly.validate innerValidateW 0 (⟨0, 0, 0, 4, 0⟩ : c3.Header Nat) = true
    ∧ c3.EvenOnly.seal innerSealEvenW 0 ⟨0, 0, 0, 0, ()⟩ = some ⟨0, 0, 0, 4, 0⟩
    ∧ c3.EvenOnly.seal innerSealOddW 0 ⟨0, 0, 0, 0, ()⟩ = none := by
  refine ⟨?_, ?_, ?_⟩
  · exact (even_only_validate_seal innerValidateW innerSealEvenW 0 ⟨0, 0, 0, 4, 0⟩
      ⟨0, 0, 0, 0, ()⟩).1.mpr ⟨by decide, by decide⟩
  · exact ((even_only_validate_seal innerValidateW innerSealEvenW 0 ⟨0, 0, 0, 4, 0⟩
      ⟨0, 0, 0, 0, ()⟩).2 ⟨0, 0, 0, 4, 0⟩ rfl).1 (by decide)
  · exact ((even_only_validate_seal innerValidateW innerSealOddW 0 ⟨0, 0, 0, 4, 0⟩
      ⟨0, 0, 0, 0, ()⟩).2 ⟨0, 0, 0, 3, 0⟩ rfl).2 (by decide)

/-- Unfolding lemma for the driver: one step of `verify_sub_chain` succeeds
exactly when the head header passes all five checks against the previous
header and the rest of the chain verifies from the head. -/
theorem verify_sub_chain_cons (hash : c2.Header → Nat) (p h : c2.Header)
    (rest : List c2.Header) :
    c2.Header.verify_sub_chain hash p (h :: rest) = true ↔
      (h.parent = hash p ∧ h.height = (p.height + 1) % U64
        ∧ h.state = (p.state + h.extrinsic) % U64
        ∧ hash h < c2.THRESHOLD ∧ h.consensus_digest = p.consensus_digest
        ∧ c2.Header.verify_sub_chain hash h rest = true) := by
  simp only [c2.Header.verify_sub_chain]
  by_cases h1 : h.parent = hash p <;>
    by_cases h2 : h.height = (p.height + 1) % U64 <;>
      by_cases h3 : h.state = (p.state + h.extrinsic) % U64 <;>
        by_cases h4 : hash h < c2.THRESHOLD <;>
          by_cases h5 : h.consensus_digest = p.consensus_digest <;>
            simp [h1, h2, h3, h4, h5, Nat.not_lt, Nat.not_le]

/-- Helper: every adjacent pair of an accepted chain (with the starting
header prepended) is hash-linked, has consecutive heights, and carries the
same consensus digest. -/
theorem verify_sub_chain_linked (hash : c2.Header → Nat) :
    ∀ (c : List c2.Header) (p : c2.Header),
      c2.Header.verify_sub_chain hash p c = true →
      ∀ i (hi : i + 1 < (p :: c).length),
        ((p :: c).get ⟨i + 1, hi⟩).parent = hash ((p :: c).get ⟨i, Nat.lt_of_succ_lt hi⟩)
        ∧ ((p :: c).get ⟨i + 1, hi⟩).height
            = (((p :: c).get ⟨i, Nat.lt_of_succ_lt hi⟩).height + 1) % U64
        ∧ ((p :: c).get ⟨i + 1, hi⟩).consensus_digest
            = ((p :: c).get ⟨i, Nat.lt_of_succ_lt hi⟩).consensus_digest := by
  intro c
  induction c with
  | nil =>
    intro p _ i hi
    simp at hi
  | cons h rest ih =>
    intro p hv i hi
    rw [verify_sub_chain_cons] at hv
    obtain ⟨hp, hh, _, _, hd, hrest⟩ := hv
    cases i with
    | zero => exact ⟨hp, hh, hd⟩
    | succ j =>
      exact ih h hrest j (by simp only [List.length_cons] at hi ⊢; omega)

/-- C9: the driver rejects broken linkage. Whenever some header of the
candidate chain has a `parent` field different from the hash of its literal
predecessor (the starting header for the first entry), or a `height`
different from its predecessor's height plus one, `verify_sub_chain`
returns false — so tampering with any field that changes a header's hash
breaks verification of every chain extending through it. -/
theorem verify_sub_chain_linkage (hash : c2.Header → Nat) (p : c2.Header)
    (c : List c2.Header)
    (hbad : ∃ i, ∃ hi : i + 1 < (p :: c).length,
      ((p :: c).get ⟨i + 1, hi⟩).parent ≠ hash ((p :: c).get ⟨i, Nat.lt_of_succ_lt hi⟩)
      ∨ ((p :: c).get ⟨i + 1, hi⟩).height
          ≠ (((p :: c).get ⟨i, Nat.lt_of_succ_lt hi⟩).height + 1) % U64) :
    c2.Header.verify_sub_chain hash p c = false := by
  cases hv : c2.Header.verify_sub_chain hash p c with
  | false => rfl
  | true =>
    obtain ⟨i, hi, hb⟩ := hbad
    have hf := verify_sub_chain_linked hash c p hv i hi
    rcases hb with hb | hb
    · exact absurd hf.1 hb
    · exact absurd hf.2.1 hb

/-- C9 witness: a child whose `parent` field is 5 while the hash of the
starting header is 0 is rejected by the driver. -/
theorem verify_sub_chain_linkage_witness :
    c2.Header.verify_sub_chain c2.hashZero ⟨0, 0, 0, 0, 0⟩ [⟨5, 1, 0, 0, 0⟩] = false :=
  verify_sub_chain_linkage c2.hashZero ⟨0, 0, 0, 0, 0⟩ [⟨5, 1, 0, 0, 0⟩]
    ⟨0, by decide, Or.inl (by decide)⟩

/-- C10: every chain the driver accepts has a constant consensus digest:
if `verify_sub_chain` returns true then each header of the chain carries
the starting header's `consensus_digest` (the driver compares every
header's digest with its predecessor's), so a chain with differing nonces
is rejected. -/
theorem verify_sub_chain_constant_digest (hash : c2.Header → Nat) :
    ∀ (c : List c2.Header) (p : c2.Header),
      c2.Header.verify_sub_chain hash p c = true →
      ∀ hdr ∈ c, hdr.consensus_digest = p.consensus_digest := by
  intro c
  induction c with
  | nil =>
    intro p _ hdr hmem
    simp at hmem
  | cons h rest ih =>
    intro p hv hdr hmem
    rw [verify_sub_chain_cons] at hv
    obtain ⟨_, _, _, _, hd, hrest⟩ := hv
    rcases List.mem_cons.mp hmem with rfl | hmem2
    · exact hd
    · exact (ih h hrest hdr hmem2).trans hd

/-- C10 witness: a correctly linked one-header chain is accepted by the
driver, and its header's consensus digest equals the starting header's. -/
theorem verify_sub_chain_constant_digest_witness :
    c2.Header.verify_sub_chain c2.hashZero ⟨0, 0, 0, 0, 0⟩ [⟨0, 1, 0, 0, 0⟩] = true
    ∧ (⟨0, 1, 0, 0, 0⟩ : c2.Header).consensus_digest
        = (⟨0, 0, 0, 0, 0⟩ : c2.Header).consensus_digest :=
  ⟨by decide,
    verify_sub_chain_constant_digest c2.hashZero [⟨0, 1, 0, 0, 0⟩] ⟨0, 0, 0, 0, 0⟩
      (by decide) ⟨0, 1, 0, 0, 0⟩ (by decide)⟩
